import Mathlib

/-!
Shallow embedding of the OptiTask backend core (a Rust actix-web/diesel
service for projects, tasks, labels and time entries, all scoped to an
owning identity), together with theorems checking its specification.

Modelling conventions:
* UUIDs are opaque; only equality is used, so they are modelled as `Nat`.
* `DateTime<Utc>` timestamps are integer nanoseconds since an arbitrary
  epoch; `NaiveDate` values are integer day numbers (day 0 = 0001-01-01
  proleptic Gregorian, which is a Monday).
* The database is a record of lists of rows, in storage order; a SELECT
  without ORDER BY returns rows in storage order, an INSERT appends.
* Each handler is a function from the database state and its inputs to a
  `(Except ServiceError response, new state)` pair; the current clock is
  passed explicitly where the code calls `Utc::now()`.
* Rust `i64` arithmetic is exact `Int` arithmetic; the one place the code
  narrows to `i32` (`as i32` on derived durations) is modelled by an
  explicit two's-complement reduction `wrapI32`.
-/

namespace OptiTask

/-- Opaque 128-bit identifier (UUID); the code only compares them for
equality, so `Nat` is a faithful model. -/
abbrev Uuid := Nat

/-- chrono `Duration::num_seconds`: the whole-second count of a nanosecond
duration, truncating toward zero (like Rust integer division). -/
def numSeconds (nanos : Int) : Int := nanos.tdiv 1000000000

/-- Rust `as i32` cast: reduce an integer into the two's-complement range
[-2^31, 2^31). -/
def wrapI32 (n : Int) : Int := (n + 2147483648) % 4294967296 - 2147483648

/-- Error taxonomy of `error_handler.rs` (`enum ServiceError`). -/
inductive ServiceError where
  | InternalServerError (msg : String)
  | BadRequest (msg : String)
  | Unauthorized (msg : String)
  | DatabaseError (msg : String)
  | NotFound (msg : String)
  | PoolError (msg : String)
  | ValidationError (msg : String)
  | ConflictError (msg : String)
  deriving DecidableEq

deriving instance DecidableEq for Except

/-- Success bodies built with `json!({"status": ..., "message": ...})` are
abstracted to their HTTP status code and message string. -/
structure ApiMessage where
  code : Nat
  message : String
  deriving DecidableEq

/-- Project row (`models.rs` `Project`, `schema.rs` `projects`). -/
structure Project where
  id : Uuid
  user_id : Uuid
  name : String
  color : Option String
  created_at : Int
  updated_at : Int
  deriving DecidableEq

/-- Task row (`models.rs` `Task`, `schema.rs` `tasks`; the `order` field is
column `task_order`). -/
structure Task where
  id : Uuid
  user_id : Uuid
  project_id : Option Uuid
  title : String
  description : Option String
  status : String
  due_date : Option Int
  order : Option Int
  created_at : Int
  updated_at : Int
  deriving DecidableEq

/-- Label row (`models.rs` `Label`, `schema.rs` `labels`). -/
structure Label where
  id : Uuid
  user_id : Uuid
  name : String
  color : Option String
  created_at : Int
  updated_at : Int
  deriving DecidableEq

/-- Join row of the task/label many-to-many relation (`models.rs`
`TaskLabel`, `schema.rs` `task_labels`, composite key (task_id, label_id)). -/
structure TaskLabel where
  task_id : Uuid
  label_id : Uuid
  deriving DecidableEq

/-- Time entry row (`models.rs` `TimeEntry`, `schema.rs` `time_entries`). -/
structure TimeEntry where
  id : Uuid
  user_id : Uuid
  task_id : Uuid
  start_time : Int
  end_time : Option Int
  duration_seconds : Option Int
  is_pomodoro_session : Bool
  created_at : Int
  updated_at : Int
  deriving DecidableEq

/-- The persisted state: the five tables of `schema.rs`, each as a list of
rows in storage order. -/
structure DbState where
  projects : List Project
  tasks : List Task
  labels : List Label
  task_labels : List TaskLabel
  time_entries : List TimeEntry
  deriving DecidableEq

/-- Presence state of one key in an inbound JSON object: the key can be
absent, present with an explicit null, or present with a value. -/
inductive JsonField (α : Type) where
  | absent
  | null
  | value (v : α)
  deriving DecidableEq

/-- The tri-state deserializers of `models.rs` (`deserialize_opt_opt_string`,
`deserialize_opt_opt_uuid`, `deserialize_opt_opt_naivedate`,
`deserialize_opt_opt_i32`, `deserialize_opt_opt_datetime_utc`), combined
with serde's `default` attribute: an absent key gives `none` (Unset), a
present null gives `some none` (Clear), and a present value `v` gives
`some (some v)` (Assign v). -/
def deserialize_opt_opt {α : Type} : JsonField α → Option (Option α)
  | .absent => none
  | .null => some none
  | .value v => some (some v)

/-- serde's handling of a plain `Option<T>` field (no custom deserializer):
both an absent key and an explicit null give `none`. -/
def deserialize_opt {α : Type} : JsonField α → Option α
  | .absent => none
  | .null => none
  | .value v => some v

/-- An inbound `PUT /tasks/{id}` JSON body, field by field
(`models.rs` `UpdateTaskPayload` before deserialization). -/
structure UpdateTaskJson where
  project_id : JsonField Uuid
  title : JsonField String
  description : JsonField String
  status : JsonField String
  due_date : JsonField Int
  order : JsonField Int

/-- `models.rs` `UpdateTaskPayload` after deserialization: nullable columns
are tri-state `Option (Option _)`, non-nullable ones plain `Option _`. -/
structure UpdateTaskPayload where
  project_id : Option (Option Uuid)
  title : Option String
  description : Option (Option String)
  status : Option String
  due_date : Option (Option Int)
  order : Option (Option Int)
  deriving DecidableEq

/-- Deserialization of `UpdateTaskPayload`: the four nullable fields use the
`deserialize_opt_opt_*` helpers (with serde `default`), `title` and `status`
are plain optional fields. -/
def deserialize_update_task_payload (j : UpdateTaskJson) : UpdateTaskPayload :=
  { project_id := deserialize_opt_opt j.project_id
    title := deserialize_opt j.title
    description := deserialize_opt_opt j.description
    status := deserialize_opt j.status
    due_date := deserialize_opt_opt j.due_date
    order := deserialize_opt_opt j.order }

/-- `models.rs` `UpdateTaskChangeset` (diesel `AsChangeset`). -/
structure UpdateTaskChangeset where
  project_id : Option (Option Uuid)
  title : Option String
  description : Option (Option String)
  status : Option String
  due_date : Option (Option Int)
  order : Option (Option Int)
  updated_at : Option Int
  deriving DecidableEq

/-- diesel `AsChangeset` semantics on one task row: a `none` field emits no
column assignment (the column keeps its stored value), a `some v` field
assigns `v` (for nullable columns `v` itself is an `Option`, `none`
meaning SQL NULL). -/
def applyTaskChangeset (c : UpdateTaskChangeset) (t : Task) : Task :=
  { t with
    project_id := c.project_id.getD t.project_id
    title := c.title.getD t.title
    description := c.description.getD t.description
    status := c.status.getD t.status
    due_date := c.due_date.getD t.due_date
    order := c.order.getD t.order
    updated_at := c.updated_at.getD t.updated_at }

/-- The inner join of `task_labels` (filtered by task id) with `labels` on
`labels.id = task_labels.label_id`, as run by the task handlers and by
`list_labels_for_task_handler`; note there is no ORDER BY, so rows come in
storage order of the join table. -/
def labelsForTask (s : DbState) (tid : Uuid) : List Label :=
  (s.task_labels.filter (fun tl => tl.task_id == tid)).filterMap
    (fun tl => s.labels.find? (fun l => l.id == tl.label_id))

/-- `models.rs` `TaskApiResponse`: a task row together with its labels. -/
structure TaskApiResponse where
  id : Uuid
  user_id : Uuid
  project_id : Option Uuid
  title : String
  description : Option String
  status : String
  due_date : Option Int
  task_order : Option Int
  created_at : Int
  updated_at : Int
  labels : List Label
  deriving DecidableEq

/-- Conversion `From<Task> for TaskApiResponse` followed by attaching the
labels loaded for the task. -/
def taskApiResponseFrom (t : Task) (ls : List Label) : TaskApiResponse :=
  { id := t.id
    user_id := t.user_id
    project_id := t.project_id
    title := t.title
    description := t.description
    status := t.status
    due_date := t.due_date
    task_order := t.order
    created_at := t.created_at
    updated_at := t.updated_at
    labels := ls }

/-- Changeset construction in `update_task_handler` (task_handlers.rs lines
197-205): copy each payload field and set `updated_at = Utc::now()`. -/
def taskChangesetOf (payload : UpdateTaskPayload) (now : Int) :
    UpdateTaskChangeset :=
  { project_id := payload.project_id
    title := payload.title
    description := payload.description
    status := payload.status
    due_date := payload.due_date
    order := payload.order
    updated_at := some now }

/-- `task_handlers.rs` `update_task_handler`: build the changeset from the
payload with `updated_at = Utc::now()`, then run a single
`UPDATE tasks SET ... WHERE id = ? AND user_id = ?` returning the updated
row (diesel `get_result`, whose zero-row case surfaces as the generic
`NotFound` of `error_handler.rs`), then load the task's labels. -/
def update_task_handler (s : DbState) (caller : Uuid) (task_to_update_id : Uuid)
    (payload : UpdateTaskPayload) (now : Int) :
    Except ServiceError TaskApiResponse × DbState :=
  let task_changes : UpdateTaskChangeset := taskChangesetOf payload now
  let newTasks := s.tasks.map (fun t =>
    if t.id == task_to_update_id && t.user_id == caller then
      applyTaskChangeset task_changes t
    else t)
  let s1 : DbState := { s with tasks := newTasks }
  let result : Except ServiceError TaskApiResponse :=
    match newTasks.find? (fun t => t.id == task_to_update_id && t.user_id == caller) with
    | some t => .ok (taskApiResponseFrom t (labelsForTask s1 t.id))
    | none => .error (.NotFound "The requested item was not found")
  (result, s1)

/-- `task_handlers.rs` `delete_task_handler`: first
`DELETE FROM task_labels WHERE task_id = ?` (note: no ownership filter),
then `DELETE FROM tasks WHERE user_id = ? AND id = ?`; report success when
the second delete affected a row, else `NotFound`. The two deletes are
separate statements, so the first one is retained even on the `NotFound`
path. -/
def delete_task_handler (s : DbState) (caller : Uuid) (task_to_delete_id : Uuid) :
    Except ServiceError ApiMessage × DbState :=
  let s1 : DbState :=
    { s with task_labels :=
        s.task_labels.filter (fun tl => !(tl.task_id == task_to_delete_id)) }
  let remaining := s1.tasks.filter (fun t =>
    !(t.user_id == caller && t.id == task_to_delete_id))
  let num_deleted := s1.tasks.length - remaining.length
  let s2 : DbState := { s1 with tasks := remaining }
  if num_deleted > 0 then
    (.ok ⟨200, "Task with id " ++ toString task_to_delete_id ++ " deleted successfully"⟩, s2)
  else
    (.error (.NotFound ("Task with id " ++ toString task_to_delete_id ++
      " not found or not owned by user to delete")), s2)

/-- `task_label_handlers.rs` `add_label_to_task_handler`: probe task
ownership, then label ownership (each failing with `NotFound`), then probe
for an existing (task, label) pair; if present answer 200 with no write,
otherwise insert the pair and answer 201. -/
def add_label_to_task_handler (s : DbState) (caller : Uuid)
    (task_id_from_path : Uuid) (label_to_add_id : Uuid) :
    Except ServiceError ApiMessage × DbState :=
  match s.tasks.find? (fun t => t.id == task_id_from_path && t.user_id == caller) with
  | none =>
      (.error (.NotFound ("Task with id " ++ toString task_id_from_path ++
        " not found or not owned by user")), s)
  | some _ =>
    match s.labels.find? (fun l => l.id == label_to_add_id && l.user_id == caller) with
    | none =>
        (.error (.NotFound ("Label with id " ++ toString label_to_add_id ++
          " not found or not owned by user")), s)
    | some _ =>
      match s.task_labels.find? (fun tl =>
          tl.task_id == task_id_from_path && tl.label_id == label_to_add_id) with
      | some _ => (.ok ⟨200, "Label already associated with task"⟩, s)
      | none =>
          (.ok ⟨201, "Label added to task successfully"⟩,
           { s with task_labels :=
               s.task_labels ++ [⟨task_id_from_path, label_to_add_id⟩] })

/-- `task_label_handlers.rs` `list_labels_for_task_handler`: probe task
ownership (`NotFound` on failure), then return the labels joined through
`task_labels` for the task; the query has no ORDER BY. -/
def list_labels_for_task_handler (s : DbState) (caller : Uuid)
    (task_id_from_path : Uuid) : Except ServiceError (List Label) × DbState :=
  match s.tasks.find? (fun t => t.id == task_id_from_path && t.user_id == caller) with
  | none =>
      (.error (.NotFound ("Task with id " ++ toString task_id_from_path ++
        " not found or not owned by user")), s)
  | some _ => (.ok (labelsForTask s task_id_from_path), s)

/-- `label_handlers.rs` `delete_label_handler`: a single
`DELETE FROM labels WHERE user_id = ? AND id = ?`; success when a row was
deleted, else `NotFound`. Nothing else is touched (in particular not
`task_labels`). -/
def delete_label_handler (s : DbState) (caller : Uuid) (label_to_delete_id : Uuid) :
    Except ServiceError ApiMessage × DbState :=
  let remaining := s.labels.filter (fun l =>
    !(l.user_id == caller && l.id == label_to_delete_id))
  let num_deleted := s.labels.length - remaining.length
  let s1 : DbState := { s with labels := remaining }
  if num_deleted > 0 then
    (.ok ⟨200, "Label with id " ++ toString label_to_delete_id ++ " deleted successfully"⟩, s1)
  else
    (.error (.NotFound ("Label with id " ++ toString label_to_delete_id ++
      " not found or not owned by user to delete")), s1)

/-- `models.rs` `CreateTimeEntryPayload`. -/
structure CreateTimeEntryPayload where
  task_id : Uuid
  start_time : Int
  end_time : Option Int
  duration_seconds : Option Int
  is_pomodoro_session : Option Bool
  deriving DecidableEq

/-- Duration derivation of `create_time_entry_handler`
(`time_entry_handlers.rs` lines 64-70): when `end_time` is present,
`duration_seconds` absent, and `end_time` strictly later than
`start_time`, the stored duration is `(end - start).num_seconds() as i32`;
otherwise the payload's `duration_seconds` is stored as-is. -/
def derive_create_duration (payload : CreateTimeEntryPayload) : Option Int :=
  match payload.end_time with
  | some e =>
      if payload.duration_seconds = none ∧ payload.start_time < e then
        some (wrapI32 (numSeconds (e - payload.start_time)))
      else payload.duration_seconds
  | none => payload.duration_seconds

/-- `time_entry_handlers.rs` `create_time_entry_handler`: verify the task
belongs to the caller (`NotFound` otherwise); derive the duration by
`derive_create_duration`; then insert the row. The fresh row id and the
clock are passed explicitly (DB-generated id, `created_at`/`updated_at`
defaults, and `is_pomodoro_session DEFAULT FALSE`). -/
def create_time_entry_handler (s : DbState) (caller : Uuid)
    (payload : CreateTimeEntryPayload) (newId : Uuid) (now : Int) :
    Except ServiceError TimeEntry × DbState :=
  match s.tasks.find? (fun t => t.id == payload.task_id && t.user_id == caller) with
  | none =>
      (.error (.NotFound ("Task with id " ++ toString payload.task_id ++
        " not found or not owned by user")), s)
  | some _ =>
    let final_duration_seconds : Option Int := derive_create_duration payload
    let created : TimeEntry :=
      { id := newId
        user_id := caller
        task_id := payload.task_id
        start_time := payload.start_time
        end_time := payload.end_time
        duration_seconds := final_duration_seconds
        is_pomodoro_session := payload.is_pomodoro_session.getD false
        created_at := now
        updated_at := now }
    (.ok created, { s with time_entries := s.time_entries ++ [created] })

/-- `models.rs` `UpdateTimeEntryPayload`: `end_time` and `duration_seconds`
are tri-state (custom deserializers), `start_time` and
`is_pomodoro_session` plain two-state options. -/
structure UpdateTimeEntryPayload where
  start_time : Option Int
  end_time : Option (Option Int)
  duration_seconds : Option (Option Int)
  is_pomodoro_session : Option Bool
  deriving DecidableEq

/-- `models.rs` `UpdateTimeEntryChangeset` (diesel `AsChangeset`). -/
structure UpdateTimeEntryChangeset where
  start_time : Option Int
  end_time : Option (Option Int)
  duration_seconds : Option (Option Int)
  is_pomodoro_session : Option Bool
  updated_at : Option Int
  deriving DecidableEq

/-- diesel `AsChangeset` semantics on one time-entry row. -/
def applyTimeEntryChangeset (c : UpdateTimeEntryChangeset) (e : TimeEntry) : TimeEntry :=
  { e with
    start_time := c.start_time.getD e.start_time
    end_time := c.end_time.getD e.end_time
    duration_seconds := c.duration_seconds.getD e.duration_seconds
    is_pomodoro_session := c.is_pomodoro_session.getD e.is_pomodoro_session
    updated_at := c.updated_at.getD e.updated_at }

/-- Duration derivation of `update_time_entry_handler`
(`time_entry_handlers.rs` lines 204-218): when the payload carries an
`end_time` value and its `duration_seconds` is absent or an explicit null,
and `end_time` is strictly later than the STORED `start_time` fetched
before the update, the changeset duration becomes
`(end_time - stored_start_time).num_seconds() as i32`. The payload's own
`start_time` is not an input of this function, mirroring the code. -/
def derive_update_duration (payload : UpdateTimeEntryPayload)
    (stored_start_time : Int) : Option (Option Int) :=
  match payload.end_time with
  | some (some e) =>
      if (payload.duration_seconds = none ∨ payload.duration_seconds = some none) ∧
          stored_start_time < e then
        some (some (wrapI32 (numSeconds (e - stored_start_time))))
      else payload.duration_seconds
  | _ => payload.duration_seconds

/-- `time_entry_handlers.rs` `update_time_entry_handler`: first fetch the
stored `start_time` of the caller-owned entry (`NotFound` otherwise);
derive the changeset duration from it by `derive_update_duration`; then run
the ownership-filtered UPDATE returning the row. -/
def update_time_entry_handler (s : DbState) (caller : Uuid)
    (entry_to_update_id : Uuid) (payload : UpdateTimeEntryPayload)
    (now : Int) : Except ServiceError TimeEntry × DbState :=
  match s.time_entries.find? (fun e => e.id == entry_to_update_id && e.user_id == caller) with
  | none =>
      (.error (.NotFound ("TimeEntry with id " ++ toString entry_to_update_id ++
        " not found or not owned by user for update")), s)
  | some current =>
    let changeset_duration : Option (Option Int) :=
      derive_update_duration payload current.start_time
    let entry_changes : UpdateTimeEntryChangeset :=
      { start_time := payload.start_time
        end_time := payload.end_time
        duration_seconds := changeset_duration
        is_pomodoro_session := payload.is_pomodoro_session
        updated_at := some now }
    let newEntries := s.time_entries.map (fun e =>
      if e.id == entry_to_update_id && e.user_id == caller then
        applyTimeEntryChangeset entry_changes e
      else e)
    let s1 : DbState := { s with time_entries := newEntries }
    let result : Except ServiceError TimeEntry :=
      match newEntries.find? (fun e => e.id == entry_to_update_id && e.user_id == caller) with
      | some e => .ok e
      | none => .error (.NotFound "The requested item was not found")
    (result, s1)

/-- `task_handlers.rs` `TaskQueryParams` (the listing query string). -/
structure TaskQueryParams where
  project_id : Option Uuid
  status : Option String
  page : Option Int
  per_page : Option Int
  deriving DecidableEq

/-- `task_handlers.rs` line 69: `let page = query.page.unwrap_or(1);`. -/
def resolved_page (q : TaskQueryParams) : Int := q.page.getD 1

/-- `task_handlers.rs` line 70: `let per_page = query.per_page.unwrap_or(10);`. -/
def resolved_per_page (q : TaskQueryParams) : Int := q.per_page.getD 10

/-- `task_handlers.rs` line 71: `let offset = (page - 1) * per_page;`. -/
def page_offset (page per_page : Int) : Int := (page - 1) * per_page

/-- `task_handlers.rs` line 129:
`let total_pages = (total_items + per_page - 1) / per_page;` with Rust
`i64` division (truncation toward zero; a zero `per_page` makes the Rust
expression panic, so this equation only models the non-zero case). -/
def total_pages_of (total_items per_page : Int) : Int :=
  (total_items + per_page - 1).tdiv per_page

/-- Gregorian leap-year rule (chrono). -/
def isLeapYear (y : Int) : Bool :=
  (y % 4 == 0 && y % 100 != 0) || y % 400 == 0

/-- Length in days of month `m` (1-12) of a year with leap flag `leap`. -/
def daysInMonth (leap : Bool) (m : Nat) : Nat :=
  match m with
  | 1 => 31
  | 2 => if leap then 29 else 28
  | 3 => 31
  | 4 => 30
  | 5 => 31
  | 6 => 30
  | 7 => 31
  | 8 => 31
  | 9 => 30
  | 10 => 31
  | 11 => 30
  | 12 => 31
  | _ => 0

/-- Days elapsed in a year before month `m` (1-12) starts. -/
def daysBeforeMonth (leap : Bool) (m : Nat) : Nat :=
  match m with
  | 1 => 0
  | 2 => 31
  | 3 => if leap then 60 else 59
  | 4 => if leap then 91 else 90
  | 5 => if leap then 121 else 120
  | 6 => if leap then 152 else 151
  | 7 => if leap then 182 else 181
  | 8 => if leap then 213 else 212
  | 9 => if leap then 244 else 243
  | 10 => if leap then 274 else 273
  | 11 => if leap then 305 else 304
  | 12 => if leap then 335 else 334
  | _ => 0

/-- Day number of 1 January of year `y` (day 0 = 0001-01-01, proleptic
Gregorian). -/
def daysBeforeYear (y : Int) : Int :=
  365 * (y - 1) + (y - 1) / 4 - (y - 1) / 100 + (y - 1) / 400

/-- Day number of the calendar date `y-m-d` (chrono
`NaiveDate::from_ymd`); day 0 = 0001-01-01, which is a Monday, so the
weekday index counted from Monday of a day number `n` is `n % 7`. -/
def daysFromCivil (y : Int) (m d : Nat) : Int :=
  daysBeforeYear y + (daysBeforeMonth (isLeapYear y) m : Int) + (d : Int) - 1

/-- `models.rs` `AnalyticsQueryPeriod`: an optional period selector and
optional explicit date bounds. -/
structure AnalyticsQueryPeriod where
  period : Option String
  start_date : Option Int
  end_date : Option Int
  deriving DecidableEq

/-- The `BadRequest` message for an unsupported period selector
(`analytics_handlers.rs` line 58). -/
def invalidPeriodMsg (p : String) : String :=
  "Invalid period specified: " ++ p ++
    ". Supported: this_week, last_7_days, this_month, last_30_days or provide start_date & end_date."

/-- The period-selector match of `calculate_date_range`
(`analytics_handlers.rs`), the code path taken when the explicit date pair
is not supplied, extracted as a helper: `this_week` (also the default for a
missing period) is the Monday-to-Sunday week containing today via chrono
`week(Weekday::Mon)` (`first_day = today - days_since_monday`, and the
weekday index from Monday of day number `n` is `n % 7`), `last_7_days` is
`[today-6, today]`, `this_month` runs from the first of the month to the
first of the next month (with December rolling the year) minus one day,
`last_30_days` is `[today-29, today]`, and any other selector is a
`BadRequest`. -/
def resolve_period (po : Option String) (ty : Int) (tm td : Nat) :
    Except ServiceError (Int × Int) :=
  let today := daysFromCivil ty tm td
  match po with
  | some p =>
      if p = "this_week" then
        .ok (today - today % 7, today - today % 7 + 6)
      else if p = "last_7_days" then
        .ok (today - 6, today)
      else if p = "this_month" then
        .ok (daysFromCivil ty tm 1,
          daysFromCivil (ty + (if tm == 12 then 1 else 0))
            (if tm == 12 then 1 else tm + 1) 1 - 1)
      else if p = "last_30_days" then
        .ok (today - 29, today)
      else
        .error (.BadRequest (invalidPeriodMsg p))
  | none => .ok (today - today % 7, today - today % 7 + 6)

/-- `analytics_handlers.rs` `calculate_date_range`. Today's date (from
`Utc::now().date_naive()`) is passed as the civil triple `ty-tm-td`; its
day number is `daysFromCivil ty tm td`. When both explicit dates are given
they are validated (`start <= end`, else `BadRequest`) and used directly;
otherwise the period selector is resolved by `resolve_period`. -/
def calculate_date_range (q : AnalyticsQueryPeriod) (ty : Int) (tm td : Nat) :
    Except ServiceError (Int × Int) :=
  match q.start_date, q.end_date with
  | some ds, some de =>
      if de < ds then .error (.BadRequest "start_date cannot be after end_date")
      else .ok (ds, de)
  | _, _ => resolve_period q.period ty tm td

/-- Translate one inbound JSON update body and apply the resulting changeset
to one task row: the composition run by `update_task_handler` on the row it
matches. -/
def translate_and_apply (j : UpdateTaskJson) (now : Int) (t : Task) : Task :=
  applyTaskChangeset (taskChangesetOf (deserialize_update_task_payload j) now) t

/-- An update body with every key absent. -/
def allUnsetTaskJson : UpdateTaskJson :=
  { project_id := .absent
    title := .absent
    description := .absent
    status := .absent
    due_date := .absent
    order := .absent }

/-- Number of stored join rows for one (task, label) pair. -/
def pairCount (s : DbState) (tid lid : Uuid) : Nat :=
  (s.task_labels.filter (fun tl => tl.task_id == tid && tl.label_id == lid)).length

/-- Sample task row: task 10 owned by user 1. -/
def taskT : Task :=
  { id := 10
    user_id := 1
    project_id := none
    title := "t"
    description := none
    status := "pending"
    due_date := none
    order := none
    created_at := 0
    updated_at := 0 }

/-- Sample label row: label 20 owned by user 1. -/
def labelL : Label :=
  { id := 20, user_id := 1, name := "l", color := none, created_at := 0, updated_at := 0 }

/-- Sample state: task 10 and label 20, both owned by user 1, associated
through the join row (10, 20). -/
def dbS0 : DbState :=
  { projects := []
    tasks := [taskT]
    labels := [labelL]
    task_labels := [⟨10, 20⟩]
    time_entries := [] }

/-- Sample label named "b" (id 21, owned by user 1). -/
def labelNameB : Label :=
  { id := 21, user_id := 1, name := "b", color := none, created_at := 0, updated_at := 0 }

/-- Sample label named "a" (id 22, owned by user 1). -/
def labelNameA : Label :=
  { id := 22, user_id := 1, name := "a", color := none, created_at := 0, updated_at := 0 }

/-- Sample state for label listing: task 10 carries label 21 (named "b")
and label 22 (named "a"), associated in that storage order. -/
def dbS5 : DbState :=
  { projects := []
    tasks := [taskT]
    labels := [labelNameB, labelNameA]
    task_labels := [⟨10, 21⟩, ⟨10, 22⟩]
    time_entries := [] }

/-- Sample time entry: entry 40 owned by user 1 on task 10, started at
instant 0, still open. -/
def timeEntryE : TimeEntry :=
  { id := 40
    user_id := 1
    task_id := 10
    start_time := 0
    end_time := none
    duration_seconds := none
    is_pomodoro_session := false
    created_at := 0
    updated_at := 0 }

/-- Sample state for time-entry updates: task 10 owned by user 1 and open
entry 40 on it. -/
def dbS9 : DbState :=
  { projects := []
    tasks := [taskT]
    labels := []
    task_labels := []
    time_entries := [timeEntryE] }

/-- Creation payload whose end/start difference is exactly 2^31 seconds
(2147483648 * 10^9 nanoseconds), one past the largest i32. -/
def overflowCreatePayload : CreateTimeEntryPayload :=
  { task_id := 10
    start_time := 0
    end_time := some (2147483648 * 1000000000)
    duration_seconds := none
    is_pomodoro_session := none }

/-- C1. The spec claims that for every entity type and every read, update
and delete operation, a request by a non-owner has exactly the same
observable outcome (NotFound and unchanged stored state) as the same
request against a nonexistent id. The task delete operation violates this:
in `dbS0` task 10 is owned by user 1 and carries join row (10, 20); when
user 2 deletes task 10 the handler answers NotFound, exactly as it does
for the nonexistent id 99, but it has already deleted the join rows of
task 10 (the `task_labels` delete carries no ownership filter), whereas the
nonexistent-id request leaves the state unchanged. -/
theorem c1_ownership_mask_violated_by_task_delete :
    (delete_task_handler dbS0 2 10).1 =
      .error (.NotFound "Task with id 10 not found or not owned by user to delete")
  ∧ (delete_task_handler dbS0 2 99).1 =
      .error (.NotFound "Task with id 99 not found or not owned by user to delete")
  ∧ (delete_task_handler dbS0 2 99).2 = dbS0
  ∧ (delete_task_handler dbS0 2 10).2.task_labels = []
  ∧ (delete_task_handler dbS0 2 10).2 ≠ dbS0 := by
  refine ⟨by decide, by decide, by decide, by decide, by decide⟩

/-- C2. Deleting an owned task does cascade: the join rows go first and no
dangling row remains (first two conjuncts, user 1 deleting its task 10 in
`dbS0`). But the claim's second half fails: when the delete reports
NotFound because the caller does not own the task (user 2 deleting task
10), the join rows of that task HAVE been removed, because the
`task_labels` delete runs before the ownership-filtered task delete and is
not ownership-filtered itself. -/
theorem c2_task_delete_cascade_but_notfound_mutates :
    delete_task_handler dbS0 1 10 =
      (.ok ⟨200, "Task with id 10 deleted successfully"⟩,
       { projects := [], tasks := [], labels := [labelL], task_labels := [],
         time_entries := [] })
  ∧ (delete_task_handler dbS0 2 10).1 =
      .error (.NotFound "Task with id 10 not found or not owned by user to delete")
  ∧ (delete_task_handler dbS0 2 10).2.task_labels = []
  ∧ dbS0.task_labels = [⟨10, 20⟩] := by
  refine ⟨by decide, by decide, by decide, by decide⟩

/-- C3. The tri-state translator and the changeset builder: for each
nullable field of the task update payload, an absent key leaves the stored
column unchanged (Unset), a present null empties it (Clear), and a present
value overwrites it (Assign); moreover `updated_at` is always refreshed to
the current time, and an update body with every key absent leaves every
data column of every row unchanged while still refreshing `updated_at` of
the addressed row. -/
theorem c3_tristate_translation_and_noop_update (j : UpdateTaskJson) (t : Task)
    (s : DbState) (caller tid : Uuid) (now : Int) :
    (deserialize_update_task_payload j).description =
      (match j.description with
       | .absent => none
       | .null => some none
       | .value v => some (some v))
  ∧ (translate_and_apply j now t).description =
      (match j.description with
       | .absent => t.description
       | .null => none
       | .value v => some v)
  ∧ (translate_and_apply j now t).project_id =
      (match j.project_id with
       | .absent => t.project_id
       | .null => none
       | .value v => some v)
  ∧ (translate_and_apply j now t).due_date =
      (match j.due_date with
       | .absent => t.due_date
       | .null => none
       | .value v => some v)
  ∧ (translate_and_apply j now t).order =
      (match j.order with
       | .absent => t.order
       | .null => none
       | .value v => some v)
  ∧ (translate_and_apply j now t).updated_at = now
  ∧ (update_task_handler s caller tid
        (deserialize_update_task_payload allUnsetTaskJson) now).2.tasks =
      s.tasks.map (fun t0 =>
        if t0.id == tid && t0.user_id == caller then { t0 with updated_at := now } else t0) := by
  obtain ⟨jp, jt, jd, js, jdd, jo⟩ := j
  refine ⟨?_, ?_, ?_, ?_, ?_, rfl, ?_⟩
  · cases jd <;> rfl
  · cases jd <;> rfl
  · cases jp <;> rfl
  · cases jdd <;> rfl
  · cases jo <;> rfl
  · show List.map (fun t0 =>
        if t0.id == tid && t0.user_id == caller then
          applyTaskChangeset
            (taskChangesetOf (deserialize_update_task_payload allUnsetTaskJson) now) t0
        else t0) s.tasks = _
    exact List.map_congr_left (fun t0 _ => by split <;> rfl)

/-- C10. Deleting a label owned by the caller removes exactly the matching
label rows and nothing else: the join table, the tasks, the projects and
the time entries are untouched, and the handler reports success. -/
theorem c10_delete_label_no_cascade (s : DbState) (caller lid : Uuid)
    (h : (s.labels.find? (fun l => l.user_id == caller && l.id == lid)).isSome) :
    delete_label_handler s caller lid =
      (.ok ⟨200, "Label with id " ++ toString lid ++ " deleted successfully"⟩,
       { s with labels := s.labels.filter (fun l => !(l.user_id == caller && l.id == lid)) })
  ∧ (delete_label_handler s caller lid).2.task_labels = s.task_labels
  ∧ (delete_label_handler s caller lid).2.tasks = s.tasks := by
  have hlt : (s.labels.filter (fun l => !(l.user_id == caller && l.id == lid))).length
      < s.labels.length := by
    refine List.length_filter_lt_length_iff_exists.mpr ?_
    obtain ⟨l, hl, hpl⟩ := List.find?_isSome.mp h
    exact ⟨l, hl, by simp [hpl]⟩
  have hpos : 0 < s.labels.length -
      (s.labels.filter (fun l => !(l.user_id == caller && l.id == lid))).length := by
    omega
  refine ⟨?_, ?_, ?_⟩ <;> simp only [delete_label_handler, if_pos hpos]

/-- C10 witness: in `dbS0` label 20 is owned by user 1 and referenced by
the join row (10, 20); deleting it removes only the label row, and the
join row referencing the now-deleted label survives. -/
theorem c10_delete_label_no_cascade_witness :
    delete_label_handler dbS0 1 20 =
      (.ok ⟨200, "Label with id 20 deleted successfully"⟩,
       { projects := [], tasks := [taskT], labels := [], task_labels := [⟨10, 20⟩],
         time_entries := [] })
  ∧ (delete_label_handler dbS0 1 20).2.task_labels = [⟨10, 20⟩] := by
  have h := c10_delete_label_no_cascade dbS0 1 20 (by decide)
  exact ⟨h.1, by rw [h.1]; rfl⟩

/-- Helper: a `find?` that fails on every element makes the corresponding
`filter` empty. -/
theorem filter_eq_nil_of_find?_eq_none {α : Type} {p : α → Bool} {l : List α}
    (h : l.find? p = none) : l.filter p = [] := by
  rw [List.filter_eq_nil_iff]
  intro a ha
  exact List.find?_eq_none.mp h a ha

/-- C4. addLabel: when the caller owns both the task and the label and the
join table satisfies its key invariant (at most one row per pair), an
existing pair yields success with no write; in general the add succeeds,
leaves exactly one stored row for the pair, and a second identical add
answers success while writing nothing; and a task or label that the caller
does not own (or that does not exist) fails with `NotFound` and no state
change. -/
theorem c4_add_label_idempotent (s : DbState) (caller tid lid : Uuid)
    (hT : (s.tasks.find? (fun t => t.id == tid && t.user_id == caller)).isSome)
    (hL : (s.labels.find? (fun l => l.id == lid && l.user_id == caller)).isSome)
    (hKey : pairCount s tid lid ≤ 1) :
    (1 ≤ pairCount s tid lid →
      add_label_to_task_handler s caller tid lid =
        (.ok ⟨200, "Label already associated with task"⟩, s))
  ∧ (∃ m, (add_label_to_task_handler s caller tid lid).1 = .ok m)
  ∧ pairCount (add_label_to_task_handler s caller tid lid).2 tid lid = 1
  ∧ add_label_to_task_handler (add_label_to_task_handler s caller tid lid).2 caller tid lid =
      (.ok ⟨200, "Label already associated with task"⟩,
       (add_label_to_task_handler s caller tid lid).2)
  ∧ (∀ s2 : DbState,
      s2.tasks.find? (fun t => t.id == tid && t.user_id == caller) = none →
      add_label_to_task_handler s2 caller tid lid =
        (.error (.NotFound ("Task with id " ++ toString tid ++
          " not found or not owned by user")), s2))
  ∧ (∀ s2 : DbState,
      (s2.tasks.find? (fun t => t.id == tid && t.user_id == caller)).isSome →
      s2.labels.find? (fun l => l.id == lid && l.user_id == caller) = none →
      add_label_to_task_handler s2 caller tid lid =
        (.error (.NotFound ("Label with id " ++ toString lid ++
          " not found or not owned by user")), s2)) := by
  obtain ⟨tv, hTv⟩ := Option.isSome_iff_exists.mp hT
  obtain ⟨lv, hLv⟩ := Option.isSome_iff_exists.mp hL
  have hmask : ∀ s2 : DbState,
      s2.tasks.find? (fun t => t.id == tid && t.user_id == caller) = none →
      add_label_to_task_handler s2 caller tid lid =
        (.error (.NotFound ("Task with id " ++ toString tid ++
          " not found or not owned by user")), s2) := by
    intro s2 h2
    simp only [add_label_to_task_handler, h2]
  have hmaskL : ∀ s2 : DbState,
      (s2.tasks.find? (fun t => t.id == tid && t.user_id == caller)).isSome →
      s2.labels.find? (fun l => l.id == lid && l.user_id == caller) = none →
      add_label_to_task_handler s2 caller tid lid =
        (.error (.NotFound ("Label with id " ++ toString lid ++
          " not found or not owned by user")), s2) := by
    intro s2 h2 h3
    obtain ⟨tv2, hTv2⟩ := Option.isSome_iff_exists.mp h2
    simp only [add_label_to_task_handler, hTv2, h3]
  cases hP : s.task_labels.find? (fun tl => tl.task_id == tid && tl.label_id == lid) with
  | some x =>
      have hres : add_label_to_task_handler s caller tid lid =
          (.ok ⟨200, "Label already associated with task"⟩, s) := by
        simp only [add_label_to_task_handler, hTv, hLv, hP]
      have hcount : pairCount s tid lid = 1 := by
        have h1 : 1 ≤ pairCount s tid lid := by
          obtain ⟨y, hy, hpy⟩ := List.find?_isSome.mp (by rw [hP]; rfl)
          have : y ∈ s.task_labels.filter
              (fun tl => tl.task_id == tid && tl.label_id == lid) :=
            List.mem_filter.mpr ⟨hy, hpy⟩
          have := List.length_pos.mpr (List.ne_nil_of_mem this)
          exact this
        omega
      refine ⟨fun _ => hres, ⟨_, by rw [hres]⟩, ?_, ?_, hmask, hmaskL⟩
      · rw [hres]; exact hcount
      · rw [hres]; exact hres
  | none =>
      have hnil : s.task_labels.filter
          (fun tl => tl.task_id == tid && tl.label_id == lid) = [] :=
        filter_eq_nil_of_find?_eq_none hP
      have hzero : pairCount s tid lid = 0 := by
        simp [pairCount, hnil]
      have hres : add_label_to_task_handler s caller tid lid =
          (.ok ⟨201, "Label added to task successfully"⟩,
           { s with task_labels := s.task_labels ++ [⟨tid, lid⟩] }) := by
        simp only [add_label_to_task_handler, hTv, hLv, hP]
      have hpairself : (fun tl : TaskLabel => tl.task_id == tid && tl.label_id == lid)
          ⟨tid, lid⟩ = true := by simp
      have hcount1 : pairCount
          { s with task_labels := s.task_labels ++ [⟨tid, lid⟩] } tid lid = 1 := by
        simp [pairCount, List.filter_append, hnil]
      have hres2 : add_label_to_task_handler
          { s with task_labels := s.task_labels ++ [⟨tid, lid⟩] } caller tid lid =
          (.ok ⟨200, "Label already associated with task"⟩,
           { s with task_labels := s.task_labels ++ [⟨tid, lid⟩] }) := by
        have hfind2 : ({ s with task_labels := s.task_labels ++ [⟨tid, lid⟩]} : DbState).task_labels.find?
            (fun tl => tl.task_id == tid && tl.label_id == lid) = some ⟨tid, lid⟩ := by
          show (s.task_labels ++ [(⟨tid, lid⟩ : TaskLabel)]).find?
            (fun tl => tl.task_id == tid && tl.label_id == lid) = some ⟨tid, lid⟩
          rw [List.find?_append, hP]
          simp
        simp only [add_label_to_task_handler, hTv, hLv, hfind2]
      refine ⟨fun h1 => absurd h1 (by omega), ⟨_, by rw [hres]⟩, ?_, ?_, hmask, hmaskL⟩
      · rw [hres]; exact hcount1
      · rw [hres]; exact hres2

/-- C4 witness: in `dbS0` task 10 and label 20 are both owned by user 1 and
the pair (10, 20) is already stored; the add succeeds with no write, and
the stored row count for the pair stays 1. -/
theorem c4_add_label_idempotent_witness :
    add_label_to_task_handler dbS0 1 10 20 =
      (.ok ⟨200, "Label already associated with task"⟩, dbS0)
  ∧ pairCount dbS0 10 20 = 1 := by
  have h := c4_add_label_idempotent dbS0 1 10 20 (by decide) (by decide) (by decide)
  exact ⟨h.1 (by decide), by decide⟩

/-- Helper: when the label ids of a list are pairwise distinct, searching
the list for a member's own id finds exactly that member. -/
theorem find?_id_eq_self_of_nodup (ls : List Label) (hn : (ls.map Label.id).Nodup)
    (l : Label) (hl : l ∈ ls) : ls.find? (fun x => x.id == l.id) = some l := by
  induction ls with
  | nil => cases hl
  | cons x rest ih =>
      rw [List.map_cons, List.nodup_cons] at hn
      rcases List.mem_cons.mp hl with h1 | h2
      · subst h1
        exact List.find?_cons_of_pos _ (by simp)
      · have hx : (x.id == l.id) = false := by
          rcases hbe : x.id == l.id with _ | _
          · rfl
          · exact absurd (by rw [beq_iff_eq.mp hbe]; exact List.mem_map_of_mem Label.id h2)
              hn.1
        rw [List.find?_cons_of_neg _ (by simp [hx])]
        exact ih hn.2 h2

/-- C5 counterexample: the claim says listLabels returns the associated
labels sorted by name ascending. In `dbS5` task 10 (owned by user 1)
carries label 21 named "b" and label 22 named "a", associated in that
storage order; the handler (whose query has no ORDER BY) returns them in
storage order, which is not sorted by name. -/
theorem c5_list_labels_not_sorted :
    (list_labels_for_task_handler dbS5 1 10).1 = .ok [labelNameB, labelNameA]
  ∧ ¬ List.Sorted (fun a b : Label => a.name ≤ b.name) [labelNameB, labelNameA] := by
  constructor
  · decide
  · intro h
    have hle : labelNameB.name ≤ labelNameA.name :=
      (List.pairwise_cons.mp h).1 _ (by simp)
    have : ¬ labelNameB.name ≤ labelNameA.name := by
      show ¬ ("b" : String) ≤ "a"
      simp
      decide
    exact absurd hle this

/-- C5 amended: for a task owned by the caller, listLabels succeeds without
changing state and returns exactly the labels associated to the task
through the join table (assuming unique label ids, as the primary key
guarantees), but in join-table storage order, not sorted by name. -/
theorem c5_amended_list_labels (s : DbState) (caller tid : Uuid)
    (hT : (s.tasks.find? (fun t => t.id == tid && t.user_id == caller)).isSome)
    (hn : (s.labels.map Label.id).Nodup) :
    list_labels_for_task_handler s caller tid = (.ok (labelsForTask s tid), s)
  ∧ ∀ l : Label, l ∈ labelsForTask s tid ↔
      (l ∈ s.labels ∧ ∃ tl ∈ s.task_labels, tl.task_id = tid ∧ tl.label_id = l.id) := by
  obtain ⟨tv, hTv⟩ := Option.isSome_iff_exists.mp hT
  constructor
  · simp only [list_labels_for_task_handler, hTv]
  · intro l
    constructor
    · intro hmem
      obtain ⟨tl, htl, hfind⟩ := List.mem_filterMap.mp hmem
      have htl2 := List.mem_filter.mp htl
      have hlmem := List.mem_of_find?_eq_some hfind
      have hpred := List.find?_some hfind
      have hpred2 : l.id = tl.label_id := by simpa using hpred
      exact ⟨hlmem, tl, htl2.1, by simpa using htl2.2, hpred2.symm⟩
    · rintro ⟨hlmem, tl, htlmem, htid, hlid⟩
      refine List.mem_filterMap.mpr ⟨tl, List.mem_filter.mpr ⟨htlmem, by simp [htid]⟩, ?_⟩
      rw [hlid]
      exact find?_id_eq_self_of_nodup s.labels hn l hlmem

/-- C5 witness for the amended claim, at the concrete state `dbS5`. -/
theorem c5_amended_list_labels_witness :
    list_labels_for_task_handler dbS5 1 10 = (.ok (labelsForTask dbS5 10), dbS5)
  ∧ (labelNameA ∈ labelsForTask dbS5 10 ↔
      (labelNameA ∈ dbS5.labels ∧ ∃ tl ∈ dbS5.task_labels,
        tl.task_id = 10 ∧ tl.label_id = labelNameA.id)) := by
  have h := c5_amended_list_labels dbS5 1 10 (by decide) (by decide)
  exact ⟨h.1, h.2 labelNameA⟩

/-- Helper: the day count of a year, seen through `daysBeforeYear`, is 365
plus one in leap years. -/
theorem daysBeforeYear_succ (y : Int) :
    daysBeforeYear (y + 1) = daysBeforeYear y + 365 + (if isLeapYear y then 1 else 0) := by
  simp only [daysBeforeYear, isLeapYear, Bool.or_eq_true, Bool.and_eq_true, beq_iff_eq,
    bne_iff_ne]
  split <;> omega

/-- Helper: the code's "first day of the next month minus one day" is the
last calendar day of the current month, for every month 1-12 and every
year (including the December year rollover). -/
theorem next_month_first_day_pred (ty : Int) (tm : Nat) (h1 : 1 ≤ tm) (h2 : tm ≤ 12) :
    daysFromCivil (ty + (if tm == 12 then 1 else 0)) (if tm == 12 then 1 else tm + 1) 1 - 1 =
    daysFromCivil ty tm (daysInMonth (isLeapYear ty) tm) := by
  have hsucc := daysBeforeYear_succ ty
  interval_cases tm <;>
    cases hL : isLeapYear ty <;>
      simp [hL, daysFromCivil, daysBeforeMonth, daysInMonth] at hsucc ⊢ <;>
        omega

/-- C6. The time-window resolver: with both explicit dates it validates
`start <= end` (`BadRequest` otherwise) and returns the pair unchanged;
with no explicit pair, `this_month` resolves to the first through the last
calendar day of the current month (December included, via the year
rollover), `last_7_days` to `[today-6, today]`, `last_30_days` to
`[today-29, today]`, a missing period defaults to the Monday-to-Sunday week
containing today (`mon % 7 = 0` says the window starts on a Monday, since
day 0 of the day-number scale is a Monday), `this_week` resolves to that
same window, and any other selector string fails `BadRequest` naming the
unsupported value. -/
theorem c6_calculate_date_range_spec (ty : Int) (tm td : Nat)
    (hm1 : 1 ≤ tm) (hm2 : tm ≤ 12)
    (hd1 : 1 ≤ td) (hd2 : td ≤ daysInMonth (isLeapYear ty) tm) :
    (∀ (per : Option String) (ds de : Int),
      calculate_date_range ⟨per, some ds, some de⟩ ty tm td =
        if de < ds then .error (.BadRequest "start_date cannot be after end_date")
        else .ok (ds, de))
  ∧ (∀ sd ed : Option Int, sd = none ∨ ed = none →
      (calculate_date_range ⟨some "this_month", sd, ed⟩ ty tm td =
        .ok (daysFromCivil ty tm 1, daysFromCivil ty tm (daysInMonth (isLeapYear ty) tm)))
      ∧ (calculate_date_range ⟨some "last_7_days", sd, ed⟩ ty tm td =
          .ok (daysFromCivil ty tm td - 6, daysFromCivil ty tm td))
      ∧ (calculate_date_range ⟨some "last_30_days", sd, ed⟩ ty tm td =
          .ok (daysFromCivil ty tm td - 29, daysFromCivil ty tm td))
      ∧ (∃ mon : Int,
          calculate_date_range ⟨none, sd, ed⟩ ty tm td = .ok (mon, mon + 6)
          ∧ calculate_date_range ⟨some "this_week", sd, ed⟩ ty tm td = .ok (mon, mon + 6)
          ∧ mon % 7 = 0 ∧ mon ≤ daysFromCivil ty tm td ∧ daysFromCivil ty tm td ≤ mon + 6)
      ∧ (∀ p : String, p ≠ "this_week" → p ≠ "last_7_days" → p ≠ "this_month" →
          p ≠ "last_30_days" →
          calculate_date_range ⟨some p, sd, ed⟩ ty tm td =
            .error (.BadRequest (invalidPeriodMsg p)))) := by
  have hpp : ∀ sd ed : Option Int, sd = none ∨ ed = none → ∀ po : Option String,
      calculate_date_range ⟨po, sd, ed⟩ ty tm td = resolve_period po ty tm td := by
    intro sd ed hne po
    rcases sd with _ | ds
    · rcases ed with _ | de <;> rfl
    · rcases ed with _ | de
      · rfl
      · rcases hne with h | h <;> simp at h
  refine ⟨fun per ds de => rfl, ?_⟩
  intro sd ed hne
  have hlast := next_month_first_day_pred ty tm hm1 hm2
  refine ⟨?_, ?_, ?_, ?_, ?_⟩
  · rw [hpp sd ed hne, ← hlast]
    rfl
  · rw [hpp sd ed hne]
    rfl
  · rw [hpp sd ed hne]
    rfl
  · refine ⟨daysFromCivil ty tm td - daysFromCivil ty tm td % 7, ?_, ?_, ?_, ?_, ?_⟩
    · rw [hpp sd ed hne]
      rfl
    · rw [hpp sd ed hne]
      rfl
    · omega
    · omega
    · omega
  · intro p h1 h2 h3 h4
    rw [hpp sd ed hne]
    show (if p = "this_week" then _ else _) = _
    rw [if_neg h1, if_neg h2, if_neg h3, if_neg h4]

/-- C6 witness: on 2024-02-15 `this_month` resolves to
[2024-02-01, 2024-02-29] (leap February), and on 2023-12-20 to
[2023-12-01, 2023-12-31] (December year rollover). -/
theorem c6_calculate_date_range_spec_witness :
    calculate_date_range ⟨some "this_month", none, none⟩ 2024 2 15 =
      .ok (daysFromCivil 2024 2 1, daysFromCivil 2024 2 29)
  ∧ calculate_date_range ⟨some "this_month", none, none⟩ 2023 12 20 =
      .ok (daysFromCivil 2023 12 1, daysFromCivil 2023 12 31)
  ∧ daysFromCivil 2024 2 29 - daysFromCivil 2024 2 1 = 28
  ∧ daysFromCivil 2023 12 31 - daysFromCivil 2023 12 1 = 30 := by
  have h1 := ((c6_calculate_date_range_spec 2024 2 15 (by decide) (by decide) (by decide)
    (by decide)).2 none none (Or.inl rfl)).1
  have h2 := ((c6_calculate_date_range_spec 2023 12 20 (by decide) (by decide) (by decide)
    (by decide)).2 none none (Or.inl rfl)).1
  refine ⟨?_, ?_, by decide, by decide⟩
  · rw [h1]; decide
  · rw [h2]; decide

/-- Helper: the `as i32` reduction is the identity on values already inside
the i32 range. -/
theorem wrapI32_eq_self {n : Int} (h0 : 0 ≤ n) (h1 : n < 2147483648) : wrapI32 n = n := by
  simp only [wrapI32]
  omega

/-- Helper: the create-path duration derivation when `end_time` is present,
`duration_seconds` absent, and the end is strictly later than the start. -/
theorem derive_create_duration_derived (p : CreateTimeEntryPayload) (e : Int)
    (he : p.end_time = some e) (hd : p.duration_seconds = none)
    (hlt : p.start_time < e) :
    derive_create_duration p = some (wrapI32 (numSeconds (e - p.start_time))) := by
  simp [derive_create_duration, he, hd, hlt]

/-- Helper: the create-path duration derivation keeps an explicit payload
duration untouched. -/
theorem derive_create_duration_explicit (p : CreateTimeEntryPayload) (d : Int)
    (hd : p.duration_seconds = some d) : derive_create_duration p = some d := by
  rcases hpe : p.end_time with _ | e <;> simp [derive_create_duration, hd, hpe]

/-- C7 counterexample: the claim says the stored duration equals
`end_time - start_time` in whole seconds whenever the duration is absent
and the end is later than the start. With start at instant 0 and end
2^31 seconds later (a representable pair of timestamps), the code's
`as i32` cast wraps: it stores -2147483648 instead of the true whole-second
difference 2147483648. -/
theorem c7_derived_duration_wraps_past_i32 :
    (create_time_entry_handler dbS0 1 overflowCreatePayload 30 0).1 =
      .ok { id := 30, user_id := 1, task_id := 10, start_time := 0,
            end_time := some (2147483648 * 1000000000),
            duration_seconds := some (-2147483648), is_pomodoro_session := false,
            created_at := 0, updated_at := 0 }
  ∧ numSeconds (2147483648 * 1000000000 - 0) = 2147483648
  ∧ (some (-2147483648) : Option Int) ≠ some (2147483648 : Int) := by
  refine ⟨by decide, by decide, by decide⟩

/-- C7 amended: on creation with the task owned by the caller, an absent
duration with a later end time stores the whole-second difference reduced
into i32 two's-complement range, hence exactly `end - start` in whole
seconds whenever that difference is below 2^31; an explicit payload
duration is always stored unchanged, even when `end_time` is present. -/
theorem c7_create_duration_derivation (s : DbState) (caller : Uuid)
    (p : CreateTimeEntryPayload) (newId : Uuid) (now : Int)
    (hT : (s.tasks.find? (fun t => t.id == p.task_id && t.user_id == caller)).isSome) :
    (∀ e, p.end_time = some e → p.duration_seconds = none → p.start_time < e →
      ∃ created, create_time_entry_handler s caller p newId now =
          (.ok created, { s with time_entries := s.time_entries ++ [created] })
        ∧ created.duration_seconds = some (wrapI32 (numSeconds (e - p.start_time)))
        ∧ (numSeconds (e - p.start_time) < 2147483648 →
            created.duration_seconds = some (numSeconds (e - p.start_time))))
  ∧ (∀ d, p.duration_seconds = some d →
      ∃ created, create_time_entry_handler s caller p newId now =
          (.ok created, { s with time_entries := s.time_entries ++ [created] })
        ∧ created.duration_seconds = some d) := by
  obtain ⟨tv, hTv⟩ := Option.isSome_iff_exists.mp hT
  have hrun : ∀ dur : Option Int, derive_create_duration p = dur →
      create_time_entry_handler s caller p newId now =
        (.ok { id := newId, user_id := caller, task_id := p.task_id,
               start_time := p.start_time, end_time := p.end_time,
               duration_seconds := dur,
               is_pomodoro_session := p.is_pomodoro_session.getD false,
               created_at := now, updated_at := now },
         { s with time_entries := s.time_entries ++
             [{ id := newId, user_id := caller, task_id := p.task_id,
                start_time := p.start_time, end_time := p.end_time,
                duration_seconds := dur,
                is_pomodoro_session := p.is_pomodoro_session.getD false,
                created_at := now, updated_at := now }] }) := by
    intro dur hdur
    simp only [create_time_entry_handler, hTv, hdur]
  constructor
  · intro e he hd hlt
    refine ⟨_, hrun _ (derive_create_duration_derived p e he hd hlt), rfl, ?_⟩
    intro hsmall
    have h0 : 0 ≤ numSeconds (e - p.start_time) :=
      Int.tdiv_nonneg (by omega) (by norm_num)
    show some (wrapI32 (numSeconds (e - p.start_time))) = _
    rw [wrapI32_eq_self h0 hsmall]
  · intro d hd
    exact ⟨_, hrun _ (derive_create_duration_explicit p d hd), rfl⟩

/-- C7 witness for the amended claim: start at instant 0, end 330 seconds
later, no explicit duration derives 330 (the spec's 10:00:00 to 10:05:30
example); and supplying explicit duration 100 alongside the same end time
stores 100 unchanged. -/
theorem c7_create_duration_derivation_witness :
    (∃ created, create_time_entry_handler dbS0 1
        { task_id := 10, start_time := 0, end_time := some 330000000000,
          duration_seconds := none, is_pomodoro_session := none } 30 5 =
        (.ok created, { dbS0 with time_entries := dbS0.time_entries ++ [created] })
      ∧ created.duration_seconds = some 330)
  ∧ (∃ created, create_time_entry_handler dbS0 1
        { task_id := 10, start_time := 0, end_time := some 330000000000,
          duration_seconds := some 100, is_pomodoro_session := none } 31 5 =
        (.ok created, { dbS0 with time_entries := dbS0.time_entries ++ [created] })
      ∧ created.duration_seconds = some 100) := by
  constructor
  · obtain ⟨c, h1, h2, h3⟩ := (c7_create_duration_derivation dbS0 1
      { task_id := 10, start_time := 0, end_time := some 330000000000,
        duration_seconds := none, is_pomodoro_session := none } 30 5
      (by decide)).1 330000000000 rfl rfl (by decide)
    refine ⟨c, h1, ?_⟩
    rw [h3 (by decide)]
    decide
  · obtain ⟨c, h1, h2⟩ := (c7_create_duration_derivation dbS0 1
      { task_id := 10, start_time := 0, end_time := some 330000000000,
        duration_seconds := some 100, is_pomodoro_session := none } 31 5
      (by decide)).2 100 rfl
    exact ⟨c, h1, h2⟩

/-- C8 counterexample: the claim says a non-positive supplied `page` or
`per_page` falls back to its default. The code only defaults a MISSING
value (`unwrap_or`): a supplied `page = 0` stays 0 and produces offset
-10 (with `per_page = 10`), not the defaulted offset 0. -/
theorem c8_nonpositive_page_not_clamped :
    resolved_page { project_id := none, status := none, page := some 0, per_page := some 10 } = 0
  ∧ page_offset
      (resolved_page { project_id := none, status := none, page := some 0, per_page := some 10 })
      (resolved_per_page { project_id := none, status := none, page := some 0, per_page := some 10 })
      = -10
  ∧ resolved_page { project_id := none, status := none, page := none, per_page := some 10 } = 1
  ∧ page_offset
      (resolved_page { project_id := none, status := none, page := none, per_page := some 10 })
      (resolved_per_page { project_id := none, status := none, page := none, per_page := some 10 })
      = 0
  ∧ (-10 : Int) ≠ 0 := by
  refine ⟨by decide, by decide, by decide, by decide, by decide⟩

/-- C8 amended: a missing `page` defaults to 1 and a missing `per_page` to
10, but a supplied value — non-positive included — is used as-is; the
offset is `(page - 1) * per_page`; and for positive `per_page` and a
non-negative row count the reported `total_pages` is the ceiling of
`total_items / per_page` (characterized by the final two inequalities). -/
theorem c8_pagination_spec (q : TaskQueryParams) (total_items : Int)
    (hpp : 0 < resolved_per_page q) (ht : 0 ≤ total_items) :
    (q.page = none → resolved_page q = 1)
  ∧ (q.per_page = none → resolved_per_page q = 10)
  ∧ (∀ v, q.page = some v → resolved_page q = v)
  ∧ (∀ v, q.per_page = some v → resolved_per_page q = v)
  ∧ page_offset (resolved_page q) (resolved_per_page q) =
      (resolved_page q - 1) * resolved_per_page q
  ∧ total_items ≤ total_pages_of total_items (resolved_per_page q) * resolved_per_page q
  ∧ (total_pages_of total_items (resolved_per_page q) - 1) * resolved_per_page q
      < total_items := by
  have htd : total_pages_of total_items (resolved_per_page q) =
      (total_items + resolved_per_page q - 1) / resolved_per_page q := by
    unfold total_pages_of
    exact Int.tdiv_eq_ediv (by omega) (by omega)
  have hdm := Int.ediv_add_emod (total_items + resolved_per_page q - 1) (resolved_per_page q)
  have hm0 := Int.emod_nonneg (total_items + resolved_per_page q - 1)
    (by omega : resolved_per_page q ≠ 0)
  have hml := Int.emod_lt_of_pos (total_items + resolved_per_page q - 1) hpp
  refine ⟨fun h => by simp [resolved_page, h], fun h => by simp [resolved_per_page, h],
    fun v h => by simp [resolved_page, h], fun v h => by simp [resolved_per_page, h],
    rfl, ?_, ?_⟩
  · rw [htd]
    nlinarith [hdm, hm0, hml]
  · rw [htd]
    nlinarith [hdm, hm0, hml]

/-- C8 witness: with 25 total items and `per_page = 10` the reported total
is 3 pages, and page 3 starts at offset 20 (the spec's example). -/
theorem c8_pagination_spec_witness :
    total_pages_of 25 10 = 3
  ∧ page_offset 3 10 = 20
  ∧ (25 : Int) ≤ total_pages_of 25 10 * 10
  ∧ (total_pages_of 25 10 - 1) * 10 < 25 := by
  have h := c8_pagination_spec
    { project_id := none, status := none, page := some 3, per_page := some 10 } 25
    (by decide) (by decide)
  exact ⟨by decide, by decide, h.2.2.2.2.2.1, h.2.2.2.2.2.2⟩

/-- Helper: mapping a function over the rows a predicate selects moves the
first match through the function, provided the function preserves the
predicate (here: an UPDATE does not change the key columns the WHERE
clause filters on). -/
theorem find?_map_ite {α : Type} (p : α → Bool) (f : α → α) (l : List α) (a : α)
    (hfind : l.find? p = some a) (hpres : ∀ x, p x = true → p (f x) = true) :
    (l.map (fun x => if p x then f x else x)).find? p = some (f a) := by
  induction l with
  | nil => cases hfind
  | cons x rest ih =>
      rcases hx : p x with _ | _
      · rw [List.find?_cons_of_neg _ (by simp [hx])] at hfind
        rw [List.map_cons, if_neg (by simp [hx]), List.find?_cons_of_neg _ (by simp [hx])]
        exact ih hfind
      · rw [List.find?_cons_of_pos _ hx] at hfind
        injection hfind with h
        subst h
        rw [List.map_cons, if_pos hx, List.find?_cons_of_pos _ (hpres _ hx)]

/-- C9 counterexample: even on the derivation path the claim's
"end_time minus the old start_time" is not stored exactly: with the stored
start at instant 0 and a payload end 2^31 seconds later, the `as i32` cast
wraps and the entry keeps duration -2147483648 instead of the whole-second
difference 2147483648. -/
theorem c9_update_duration_wraps_past_i32 :
    (update_time_entry_handler dbS9 1 40
      { start_time := none, end_time := some (some (2147483648 * 1000000000)),
        duration_seconds := none, is_pomodoro_session := none } 0).1 =
      .ok { id := 40, user_id := 1, task_id := 10, start_time := 0,
            end_time := some (2147483648 * 1000000000),
            duration_seconds := some (-2147483648), is_pomodoro_session := false,
            created_at := 0, updated_at := 0 }
  ∧ numSeconds (2147483648 * 1000000000 - 0) = 2147483648
  ∧ (some (-2147483648) : Option Int) ≠ some (2147483648 : Int) := by
  refine ⟨by decide, by decide, by decide⟩

/-- C9 amended: on update, when the payload carries an `end_time` value and
`duration_seconds` is absent or explicitly null, the derived duration is
computed from the entry's PREVIOUSLY STORED `start_time` — it equals the
whole-second difference from the old start reduced into i32 range, and
only when the end is strictly later than the old start. A `start_time`
supplied in the same payload has no influence on the derived duration, so
updating `start_time` and `end_time` together can store a duration
inconsistent with the new start (last conjunct: new start 1s, end 10s,
but stored duration 10 seconds, from the old start 0). -/
theorem c9_update_duration_uses_stored_start (s : DbState) (caller eid : Uuid)
    (p : UpdateTimeEntryPayload) (now : Int) (cur : TimeEntry)
    (hf : s.time_entries.find? (fun e => e.id == eid && e.user_id == caller) = some cur) :
    (∀ e2, p.end_time = some (some e2) →
      (p.duration_seconds = none ∨ p.duration_seconds = some none) →
      cur.start_time < e2 →
      ∃ upd, (update_time_entry_handler s caller eid p now).1 = .ok upd
        ∧ upd.duration_seconds = some (wrapI32 (numSeconds (e2 - cur.start_time)))
        ∧ upd.start_time = p.start_time.getD cur.start_time)
  ∧ (∀ v : Int,
      ∃ upd1 upd2,
        (update_time_entry_handler s caller eid p now).1 = .ok upd1
        ∧ (update_time_entry_handler s caller eid { p with start_time := some v } now).1 =
            .ok upd2
        ∧ upd2.duration_seconds = upd1.duration_seconds
        ∧ upd2.start_time = v)
  ∧ (∃ u, (update_time_entry_handler dbS9 1 40
        { start_time := some 1000000000, end_time := some (some 10000000000),
          duration_seconds := none, is_pomodoro_session := none } 0).1 = .ok u
      ∧ u.start_time = 1000000000
      ∧ u.end_time = some 10000000000
      ∧ u.duration_seconds = some 10
      ∧ numSeconds (10000000000 - 1000000000) = 9
      ∧ (10 : Int) ≠ 9) := by
  have hrun : ∀ p2 : UpdateTimeEntryPayload,
      (update_time_entry_handler s caller eid p2 now).1 =
        .ok (applyTimeEntryChangeset
          { start_time := p2.start_time, end_time := p2.end_time,
            duration_seconds := derive_update_duration p2 cur.start_time,
            is_pomodoro_session := p2.is_pomodoro_session, updated_at := some now } cur) := by
    intro p2
    have hfind2 := find?_map_ite (fun e => e.id == eid && e.user_id == caller)
      (applyTimeEntryChangeset
        { start_time := p2.start_time, end_time := p2.end_time,
          duration_seconds := derive_update_duration p2 cur.start_time,
          is_pomodoro_session := p2.is_pomodoro_session, updated_at := some now })
      s.time_entries cur hf (fun x hx => hx)
    simp only [update_time_entry_handler, hf, hfind2]
  refine ⟨?_, ?_, ?_⟩
  · intro e2 he hd hlt
    refine ⟨_, hrun p, ?_, rfl⟩
    show ({ start_time := p.start_time, end_time := p.end_time,
            duration_seconds := derive_update_duration p cur.start_time,
            is_pomodoro_session := p.is_pomodoro_session,
            updated_at := some now } : UpdateTimeEntryChangeset).duration_seconds.getD
          cur.duration_seconds = _
    have : derive_update_duration p cur.start_time =
        some (some (wrapI32 (numSeconds (e2 - cur.start_time)))) := by
      simp [derive_update_duration, he, hd, hlt]
    simp [this]
  · intro v
    refine ⟨_, _, hrun p, hrun { p with start_time := some v }, rfl, rfl⟩
  · exact ⟨{ id := 40, user_id := 1, task_id := 10, start_time := 1000000000,
             end_time := some 10000000000, duration_seconds := some 10,
             is_pomodoro_session := false, created_at := 0, updated_at := 0 },
           by decide, by decide, by decide, by decide, by decide, by decide⟩

/-- C9 witness for the amended claim: updating entry 40 (stored start 0)
with new start 1s, end 10s and no duration derives 10 seconds from the OLD
start, and the new start is stored alongside it. -/
theorem c9_update_duration_uses_stored_start_witness :
    ∃ upd, (update_time_entry_handler dbS9 1 40
        { start_time := some 1000000000, end_time := some (some 10000000000),
          duration_seconds := none, is_pomodoro_session := none } 0).1 = .ok upd
      ∧ upd.duration_seconds = some 10
      ∧ upd.start_time = 1000000000 := by
  obtain ⟨u, h1, h2, h3⟩ := (c9_update_duration_uses_stored_start dbS9 1 40
    { start_time := some 1000000000, end_time := some (some 10000000000),
      duration_seconds := none, is_pomodoro_session := none } 0 timeEntryE
    (by decide)).1 10000000000 rfl (Or.inl rfl) (by decide)
  refine ⟨u, h1, ?_, ?_⟩
  · rw [h2]
    decide
  · rw [h3]
    decide

end OptiTask
